import Mathlib

/-!
Verification of the thermal-control analysis core: shallow embedding of the
offset-extraction / fitting / inverse-solving pipeline of
`src/analysis/utils/data_processing.py` and `src/analysis/fit_parameters.py`,
together with theorems settling the specification claims.

Python floats are modelled as real numbers (exact arithmetic); a `pandas`
missing value (NaN) in a data column is modelled as `Option.none`; a Python
exception caught by a surrounding `try/except` is modelled as the `.error`
case of an `Except Unit` body that the catching wrapper converts to the
documented fallback value.
-/

set_option maxHeartbeats 1000000

namespace ThermalControl

noncomputable section

/-! ## InverseSolver: `data_processing.calculate_corrected_target`

The source computes an ambient correction when all three ambient arguments
are given, forms the discriminant `b**2 - 4*a*(c - adjusted)`, and either
takes the linear approximation `(adjusted - c)/b` (discriminant negative) or
the `+` quadratic root, replaced by the `-` root only when the `+` root is
outside `[0, 100]` and the `-` root is inside.  The whole body sits in a
`try/except` returning `desired_liquid_temp` on any exception.

The one reachable exception at well-typed numeric input is the
`ZeroDivisionError` of the plain-float division `(adjusted - c)/b` at
`b = 0`; it is modelled as the `.error` case.  (The root divisions go
through `np.sqrt`, so at `a = 0` numpy yields an IEEE infinity or NaN with
a warning instead of raising; that configuration has no real-number
counterpart and is outside every claim, all of which require `a ≠ 0` for
the quadratic branch.) -/

/-- `ambient_coeff * (ambient_temp - ambient_ref)` when all three optional
ambient arguments are supplied, `0.0` otherwise
(`data_processing.py` lines 385–387). -/
def ambient_correction_term (ambient_temp ambient_ref ambient_coeff : Option ℝ) : ℝ :=
  match ambient_temp, ambient_ref, ambient_coeff with
  | some t, some r, some k => k * (t - r)
  | _, _, _ => 0

/-- The `try`-block of `calculate_corrected_target`
(`data_processing.py` lines 383–409). -/
def calcCorrectedTargetBody (desired_liquid_temp a b c : ℝ)
    (ambient_temp ambient_ref ambient_coeff : Option ℝ) : Except Unit ℝ :=
  let adjusted_desired_temp :=
    desired_liquid_temp - ambient_correction_term ambient_temp ambient_ref ambient_coeff
  let discriminant := b ^ 2 - 4 * a * (c - adjusted_desired_temp)
  if discriminant < 0 then
    if b = 0 then .error () else .ok ((adjusted_desired_temp - c) / b)
  else
    let corrected_target := (-b + Real.sqrt discriminant) / (2 * a)
    if corrected_target < 0 ∨ corrected_target > 100 then
      let alt_target := (-b - Real.sqrt discriminant) / (2 * a)
      if 0 ≤ alt_target ∧ alt_target ≤ 100 then .ok alt_target else .ok corrected_target
    else .ok corrected_target

/-- `data_processing.calculate_corrected_target` (lines 369–413): the
`try`-block result, or `desired_liquid_temp` when the body raises. -/
def calculate_corrected_target (desired_liquid_temp a b c : ℝ)
    (ambient_temp ambient_ref ambient_coeff : Option ℝ) : ℝ :=
  match calcCorrectedTargetBody desired_liquid_temp a b c
      ambient_temp ambient_ref ambient_coeff with
  | .ok v => v
  | .error _ => desired_liquid_temp

/-- Discriminant `b² − 4a(c − y_adj)` of `a·x² + b·x + (c − y_adj) = 0`. -/
def discriminantOf (a b c yAdj : ℝ) : ℝ := b ^ 2 - 4 * a * (c - yAdj)

/-- The `+` quadratic root `(−b + √D)/(2a)`. -/
def rootPlus (a b D : ℝ) : ℝ := (-b + Real.sqrt D) / (2 * a)

/-- The `−` quadratic root `(−b − √D)/(2a)`. -/
def rootMinus (a b D : ℝ) : ℝ := (-b - Real.sqrt D) / (2 * a)

end

/-! ## StepSegmenter: `data_processing.split_temperature_steps`

One row of the measurement DataFrame; rational numbers model the float
channel values and `Option.none` a missing (NaN) cell.  The segmenter
reads only the `Target Temperature` column, which the claims treat as
present. -/

structure Sample where
  time : ℚ
  target_temp : ℚ
  holder_temp : Option ℚ
  liquid_temp : Option ℚ
  ambient_temp : Option ℚ
deriving DecidableEq

/-- The `start_temp`/`stop_temp`/`increment` fields of the settings dict,
in the branch where all are supplied (the path described by the claims). -/
structure MeasurementSettings where
  start_temp : ℚ
  stop_temp : ℚ
  increment : ℚ
deriving DecidableEq

/-- Python slice `df.iloc[a:b]`. -/
def sliceIdx (df : List Sample) (a b : ℕ) : List Sample := (df.take b).drop a

/-- The change-detection loop `for i in range(1, len(target_temps)): if
abs(target_temps[i] - target_temps[i-1]) > 0.1: temp_changes.append(i)`
(`data_processing.py` lines 240–242). -/
def temp_changes (target_temps : List ℚ) : List ℕ :=
  (List.range' 1 (target_temps.length - 1)).filter fun i =>
    |target_temps.getD i 0 - target_temps.getD (i - 1) 0| > 1 / 10

/-- `expected_steps = int(abs((stop - start) / increment)) + 1`
(line 234); `int` truncates the non-negative absolute value, i.e. floor. -/
def expected_steps (settings : MeasurementSettings) : ℕ :=
  (⌊|(settings.stop_temp - settings.start_temp) / settings.increment|⌋).toNat + 1

/-- `if not step_data.empty: steps.append(step_data)` — the guarded append
used by both the change-detection and the fallback loop. -/
def appendNonEmpty (acc : List (List Sample)) (xs : List Sample) : List (List Sample) :=
  if xs.isEmpty then acc else acc ++ [xs]

/-- The loop `for i in range(len(step_points) - 1)` slicing between
consecutive step points (lines 251–254); consecutive index pairs of
`step_points` are its zip with its own tail. -/
def stepsFromPoints (df : List Sample) (points : List ℕ) : List (List Sample) :=
  (points.zip points.tail).foldl
    (fun acc pq => appendNonEmpty acc (sliceIdx df pq.1 pq.2)) []

/-- The fallback loop (lines 258–269): `segment_size = len(df) //
expected_steps`, chunk `i` is `df[i*segment_size : (i+1)*segment_size]`
except the last chunk which runs to the end. -/
def equalSegments (df : List Sample) (e : ℕ) : List (List Sample) :=
  let segment_size := df.length / e
  (List.range e).foldl
    (fun acc i =>
      appendNonEmpty acc
        (sliceIdx df (i * segment_size)
          (if i = e - 1 then df.length else (i + 1) * segment_size))) []

/-- `data_processing.split_temperature_steps` (lines 199–280), in the branch
where settings with `start_temp`, `stop_temp` and `increment` are supplied
(the inference branch for absent settings is not involved in the claims;
no exception is reachable on well-formed rows, so the `except` fallback is
dead here). -/
def split_temperature_steps (df : List Sample) (settings : MeasurementSettings) :
    List (List Sample) :=
  if settings.increment = 0 then [df]
  else
    let e := expected_steps settings
    let changes := temp_changes (df.map (·.target_temp))
    if changes.length ≥ e - 1 then
      stepsFromPoints df ((0 :: changes) ++ [df.length])
    else
      equalSegments df e

/-- The declarative form of the slice loop: one slice per consecutive
boundary pair. -/
def boundarySlices (df : List Sample) (points : List ℕ) : List (List Sample) :=
  (points.zip points.tail).map fun pq => sliceIdx df pq.1 pq.2

/-- A sample row with only time and target temperature populated. -/
def mkSample (t tgt : ℚ) : Sample := ⟨t, tgt, none, none, none⟩

/-! ## StableRegionExtractor: `data_processing.extract_offset_data`

pandas semantics used by the source: `.mean()` skips NaN cells and is NaN
on an all-missing column (modelled `none`); `.std()` uses `ddof = 1` and is
NaN with fewer than two valid values.  `int(0.8 * len)` equals `⌊4·len/5⌋`:
the float `0.8` is slightly above 4/5 and the product's rounding error
(≈ 1e-16) cannot cross the next smaller integer, whose distance is at least
0.2 except at multiples of 5 where the product stays ≥ the exact integer,
so truncation yields `4*len/5` in natural division. -/

/-- pandas `Series.mean()` on a column with possible NaN cells. -/
def colMean (xs : List (Option ℚ)) : Option ℚ :=
  let v := xs.filterMap id
  if v.length = 0 then none else some (v.sum / v.length)

/-- pandas `Series.std()` (sample variance, `ddof = 1`), before the square
root: NaN with fewer than two valid values. -/
def colVarSample (xs : List (Option ℚ)) : Option ℚ :=
  let v := xs.filterMap id
  if v.length < 2 then none
  else some ((v.map fun x => (x - v.sum / v.length) ^ 2).sum / ((v.length : ℚ) - 1))

noncomputable section

/-- pandas `Series.std()`: square root of the sample variance. -/
def colStd (xs : List (Option ℚ)) : Option ℝ :=
  (colVarSample xs).map fun q => Real.sqrt (q : ℝ)

/-- Mean of an always-present column (the `Target Temperature` channel,
which the claims treat as present). -/
def meanQ (xs : List ℚ) : ℚ := xs.sum / xs.length

/-- The result dict of `extract_offset_data`
(`data_processing.py` lines 342–353). -/
structure OffsetData where
  target_temp : ℚ
  holder_temp_mean : Option ℚ
  holder_temp_std : Option ℝ
  holder_offset : Option ℚ
  liquid_temp_mean : Option ℚ
  liquid_temp_std : Option ℝ
  liquid_offset : Option ℚ
  ambient_temp_mean : Option ℚ
  ambient_temp_std : Option ℝ
  time_to_stability : ℚ

/-- `data_processing.extract_offset_data` (lines 282–367): statistics over
the stable window `step_df[int(0.8*len):]`, plus the time-to-stability scan
over the whole step (first sample whose liquid temperature is within 0.5 °C
of the stable liquid mean, defaulting to half the last timestamp; a NaN on
either side of that comparison makes it false).  The `try/except` returns
`None` exactly when the body raises, which on well-formed rows happens only
for an empty step (`time_values[0]` raises `IndexError`). -/
def extract_offset_data (step_df : List Sample) : Option OffsetData :=
  match step_df with
  | [] => none
  | s0 :: rest =>
    let df := s0 :: rest
    let stable_data := df.drop (4 * df.length / 5)
    let target_temp := meanQ (stable_data.map (·.target_temp))
    let liquid_temp_mean := colMean (stable_data.map (·.liquid_temp))
    let t_stable :=
      match df.find? (fun s =>
        match s.liquid_temp, liquid_temp_mean with
        | some v, some m => decide (|v - m| < 1 / 2)
        | _, _ => false) with
      | some s => s.time
      | none => (df.getLast (List.cons_ne_nil s0 rest)).time / 2
    some {
      target_temp := target_temp
      holder_temp_mean := colMean (stable_data.map (·.holder_temp))
      holder_temp_std := colStd (stable_data.map (·.holder_temp))
      holder_offset := (colMean (stable_data.map (·.holder_temp))).map
        fun m => m - target_temp
      liquid_temp_mean := liquid_temp_mean
      liquid_temp_std := colStd (stable_data.map (·.liquid_temp))
      liquid_offset := liquid_temp_mean.map fun m => m - target_temp
      ambient_temp_mean := colMean (stable_data.map (·.ambient_temp))
      ambient_temp_std := colStd (stable_data.map (·.ambient_temp))
      time_to_stability := t_stable }

end

/-! ## CorrectionModelFitter: `fit_parameters.fit_correction_parameters`

The fitter reads the keys `target_temp`, `liquid_offset` and (with ambient
correction) `ambient_temp_mean` of each offset dict; a missing
`ambient_temp_mean` key raises `KeyError` inside the list comprehension and
is modelled as `none`.  `scipy.optimize.curve_fit` is external code; both
model functions are linear in their parameters, so its exact least-squares
optimum is the solution of the normal equations, which is how the call is
modelled: it fails (raises) when there are fewer data points than
parameters, and the singular-normal-system case is modelled as the failure
(non-convergence) case as well.  Parameter standard errors are the square
roots of the diagonal of `pcov = s²·(XᵀX)⁻¹` with `s² = SSR/(n − p)`
(`absolute_sigma=False`); scipy returns an infinite `pcov` when `n = p`,
modelled as `none`.  A float NaN (e.g. `R²` at zero total variance, where
numpy yields `0/0`) is modelled as `none`, as is an absent dict key. -/

/-- The keys of one offset dict that the fitter reads. -/
structure OffsetRecord where
  target_temp : ℚ
  liquid_offset : ℚ
  ambient_temp_mean : Option ℚ
deriving DecidableEq

/-- The `initial_params` dict: `.get` supplies the documented defaults for
absent keys, so the dict is modelled with all keys present. -/
structure InitialParams where
  a : ℚ
  b : ℚ
  c : ℚ
  ambient_coeff : ℚ
deriving DecidableEq

/-- The defaults `a=0.003, b=−0.3, c=6.0, ambient_coeff=0.0`
(`fit_parameters.py` lines 62–75). -/
def defaultInitial : InitialParams := ⟨0.003, -0.3, 6, 0⟩

/-- The result dict of `fit_correction_parameters`; keys absent on a given
path (and float NaN values) are `none`. -/
structure FitResult where
  a : ℚ
  b : ℚ
  c : ℚ
  use_ambient : Bool
  ambient_ref : Option ℚ
  ambient_coeff : Option ℚ
  a_err : Option ℝ
  b_err : Option ℝ
  c_err : Option ℝ
  ambient_coeff_err : Option ℝ
  r_squared : Option ℚ
  rmse : Option ℝ

/-- `quadratic_model(x, a, b, c) = a·x² + b·x + c`
(`fit_parameters.py` lines 16–27). -/
def quadratic_model (x a b c : ℚ) : ℚ := a * x ^ 2 + b * x + c

/-- `quadratic_model_with_ambient((x, z), a, b, c, d) = a·x² + b·x + c + d·z`
(lines 29–41). -/
def quadratic_model_with_ambient (x z a b c d : ℚ) : ℚ :=
  a * x ^ 2 + b * x + c + d * z

/-- Moment `Σ xᵢᵏ` of the `target_temps` array. -/
def sPow (l : List OffsetRecord) (k : ℕ) : ℚ :=
  (l.map fun d => d.target_temp ^ k).sum

/-- Moment `Σ xᵢᵏ·yᵢ` of `target_temps` against `liquid_offsets`. -/
def sPowOff (l : List OffsetRecord) (k : ℕ) : ℚ :=
  (l.map fun d => d.target_temp ^ k * d.liquid_offset).sum

/-- `ambient_diffs` entry `z = ambient_temp_mean − ambient_ref` (line 82);
only used on paths where every record carries an ambient mean. -/
def zOf (ambient_ref : ℚ) (d : OffsetRecord) : ℚ :=
  d.ambient_temp_mean.getD 0 - ambient_ref

/-- Moment `Σ xᵢᵏ·zᵢ`. -/
def sPowZ (l : List OffsetRecord) (ambient_ref : ℚ) (k : ℕ) : ℚ :=
  (l.map fun d => d.target_temp ^ k * zOf ambient_ref d).sum

/-- Moment `Σ zᵢ²`. -/
def sZZ (l : List OffsetRecord) (ambient_ref : ℚ) : ℚ :=
  (l.map fun d => zOf ambient_ref d ^ 2).sum

/-- Moment `Σ zᵢ·yᵢ`. -/
def sZOff (l : List OffsetRecord) (ambient_ref : ℚ) : ℚ :=
  (l.map fun d => zOf ambient_ref d * d.liquid_offset).sum

/-- 3×3 determinant. -/
def det3 (a11 a12 a13 a21 a22 a23 a31 a32 a33 : ℚ) : ℚ :=
  a11 * (a22 * a33 - a23 * a32) - a12 * (a21 * a33 - a23 * a31) +
    a13 * (a21 * a32 - a22 * a31)

/-- 4×4 determinant by cofactor expansion along the first row. -/
def det4 (a11 a12 a13 a14 a21 a22 a23 a24 a31 a32 a33 a34 a41 a42 a43 a44 : ℚ) : ℚ :=
  a11 * det3 a22 a23 a24 a32 a33 a34 a42 a43 a44 -
    a12 * det3 a21 a23 a24 a31 a33 a34 a41 a43 a44 +
    a13 * det3 a21 a22 a24 a31 a32 a34 a41 a42 a44 -
    a14 * det3 a21 a22 a23 a31 a32 a33 a41 a42 a43

/-- Residual sum of squares of the plain quadratic model. -/
def ssResQuad (l : List OffsetRecord) (a b c : ℚ) : ℚ :=
  (l.map fun d => (d.liquid_offset - quadratic_model d.target_temp a b c) ^ 2).sum

/-- Residual sum of squares of the ambient-augmented model. -/
def ssResAmb (l : List OffsetRecord) (ambient_ref a b c dc : ℚ) : ℚ :=
  (l.map fun d =>
    (d.liquid_offset -
      quadratic_model_with_ambient d.target_temp (zOf ambient_ref d) a b c dc) ^ 2).sum

/-- Total sum of squares `Σ(yᵢ − ȳ)²` of the `liquid_offsets` array. -/
def ssTot (l : List OffsetRecord) : ℚ :=
  (l.map fun d =>
    (d.liquid_offset - (l.map fun e => e.liquid_offset).sum / l.length) ^ 2).sum

/-- `curve_fit(quadratic_model, target_temps, liquid_offsets, p0)`: fails
with fewer points than the 3 parameters; otherwise the exact least-squares
optimum via Cramer's rule on the normal equations (failure when the normal
system is singular). -/
def curveFitQuad (l : List OffsetRecord) : Except Unit (ℚ × ℚ × ℚ) :=
  if l.length < 3 then .error ()
  else
    let Δ := det3 (sPow l 4) (sPow l 3) (sPow l 2)
      (sPow l 3) (sPow l 2) (sPow l 1)
      (sPow l 2) (sPow l 1) (sPow l 0)
    if Δ = 0 then .error ()
    else .ok
      (det3 (sPowOff l 2) (sPow l 3) (sPow l 2)
        (sPowOff l 1) (sPow l 2) (sPow l 1)
        (sPowOff l 0) (sPow l 1) (sPow l 0) / Δ,
      det3 (sPow l 4) (sPowOff l 2) (sPow l 2)
        (sPow l 3) (sPowOff l 1) (sPow l 1)
        (sPow l 2) (sPowOff l 0) (sPow l 0) / Δ,
      det3 (sPow l 4) (sPow l 3) (sPowOff l 2)
        (sPow l 3) (sPow l 2) (sPowOff l 1)
        (sPow l 2) (sPow l 1) (sPowOff l 0) / Δ)

/-- `curve_fit(quadratic_model_with_ambient, (target_temps, ambient_diffs),
liquid_offsets, p0)`: as `curveFitQuad` with the 4-parameter model. -/
def curveFitAmb (l : List OffsetRecord) (ambient_ref : ℚ) :
    Except Unit (ℚ × ℚ × ℚ × ℚ) :=
  if l.length < 4 then .error ()
  else
    let s4 := sPow l 4; let s3 := sPow l 3; let s2 := sPow l 2
    let s1 := sPow l 1; let s0 := sPow l 0
    let u2 := sPowZ l ambient_ref 2; let u1 := sPowZ l ambient_ref 1
    let u0 := sPowZ l ambient_ref 0; let v := sZZ l ambient_ref
    let t2 := sPowOff l 2; let t1 := sPowOff l 1; let t0 := sPowOff l 0
    let w := sZOff l ambient_ref
    let Δ := det4 s4 s3 s2 u2 s3 s2 s1 u1 s2 s1 s0 u0 u2 u1 u0 v
    if Δ = 0 then .error ()
    else .ok
      (det4 t2 s3 s2 u2 t1 s2 s1 u1 t0 s1 s0 u0 w u1 u0 v / Δ,
      det4 s4 t2 s2 u2 s3 t1 s1 u1 s2 t0 s0 u0 u2 w u0 v / Δ,
      det4 s4 s3 t2 u2 s3 s2 t1 u1 s2 s1 t0 u0 u2 u1 w v / Δ,
      det4 s4 s3 s2 t2 s3 s2 s1 t1 s2 s1 s0 t0 u2 u1 u0 w / Δ)

/-- Determinant of the 3-parameter normal system. -/
def deltaQuad (l : List OffsetRecord) : ℚ :=
  det3 (sPow l 4) (sPow l 3) (sPow l 2)
    (sPow l 3) (sPow l 2) (sPow l 1)
    (sPow l 2) (sPow l 1) (sPow l 0)

/-- Diagonal cofactors of the 3-parameter normal matrix (for `a`, `b`, `c`). -/
def cofQuadA (l : List OffsetRecord) : ℚ := sPow l 2 * sPow l 0 - sPow l 1 * sPow l 1

def cofQuadB (l : List OffsetRecord) : ℚ := sPow l 4 * sPow l 0 - sPow l 2 * sPow l 2

def cofQuadC (l : List OffsetRecord) : ℚ := sPow l 4 * sPow l 2 - sPow l 3 * sPow l 3

/-- Determinant of the 4-parameter normal system. -/
def deltaAmb (l : List OffsetRecord) (ambient_ref : ℚ) : ℚ :=
  det4 (sPow l 4) (sPow l 3) (sPow l 2) (sPowZ l ambient_ref 2)
    (sPow l 3) (sPow l 2) (sPow l 1) (sPowZ l ambient_ref 1)
    (sPow l 2) (sPow l 1) (sPow l 0) (sPowZ l ambient_ref 0)
    (sPowZ l ambient_ref 2) (sPowZ l ambient_ref 1) (sPowZ l ambient_ref 0)
    (sZZ l ambient_ref)

/-- Diagonal cofactors of the 4-parameter normal matrix. -/
def cofAmbA (l : List OffsetRecord) (r : ℚ) : ℚ :=
  det3 (sPow l 2) (sPow l 1) (sPowZ l r 1)
    (sPow l 1) (sPow l 0) (sPowZ l r 0)
    (sPowZ l r 1) (sPowZ l r 0) (sZZ l r)

def cofAmbB (l : List OffsetRecord) (r : ℚ) : ℚ :=
  det3 (sPow l 4) (sPow l 2) (sPowZ l r 2)
    (sPow l 2) (sPow l 0) (sPowZ l r 0)
    (sPowZ l r 2) (sPowZ l r 0) (sZZ l r)

def cofAmbC (l : List OffsetRecord) (r : ℚ) : ℚ :=
  det3 (sPow l 4) (sPow l 3) (sPowZ l r 2)
    (sPow l 3) (sPow l 2) (sPowZ l r 1)
    (sPowZ l r 2) (sPowZ l r 1) (sZZ l r)

def cofAmbD (l : List OffsetRecord) (r : ℚ) : ℚ :=
  det3 (sPow l 4) (sPow l 3) (sPow l 2)
    (sPow l 3) (sPow l 2) (sPow l 1)
    (sPow l 2) (sPow l 1) (sPow l 0)

noncomputable section

/-- One entry of `np.sqrt(np.diag(pcov))`: `√(s²·cof/Δ)` with
`s² = SSR/(n − p)`; `none` models scipy's infinite covariance at `n = p`. -/
def perrEntry (n p : ℕ) (ssr cof Δ : ℚ) : Option ℝ :=
  if n = p then none
  else some (Real.sqrt ((ssr / ((n : ℚ) - p) * (cof / Δ) : ℚ) : ℝ))

/-- The `try`-block of `fit_correction_parameters`
(`fit_parameters.py` lines 56–191).  The initial guess `p0` does not enter:
for a model linear in its parameters the exact least-squares optimum is
independent of it. -/
def fitBody (offset_data : List OffsetRecord) (use_ambient : Bool)
    (ambient_ref : ℚ) : Except Unit FitResult :=
  if use_ambient then
    if offset_data.any fun d => d.ambient_temp_mean.isNone then .error ()
    else
      match curveFitAmb offset_data ambient_ref with
      | .error e => .error e
      | .ok (a, b, c, dc) =>
        let n := offset_data.length
        let ssr := ssResAmb offset_data ambient_ref a b c dc
        .ok {
          a := a
          b := b
          c := c
          use_ambient := true
          ambient_ref := some ambient_ref
          ambient_coeff := some dc
          a_err := perrEntry n 4 ssr (cofAmbA offset_data ambient_ref)
            (deltaAmb offset_data ambient_ref)
          b_err := perrEntry n 4 ssr (cofAmbB offset_data ambient_ref)
            (deltaAmb offset_data ambient_ref)
          c_err := perrEntry n 4 ssr (cofAmbC offset_data ambient_ref)
            (deltaAmb offset_data ambient_ref)
          ambient_coeff_err := perrEntry n 4 ssr (cofAmbD offset_data ambient_ref)
            (deltaAmb offset_data ambient_ref)
          r_squared := if ssTot offset_data = 0 then none
            else some (1 - ssr / ssTot offset_data)
          rmse := some (Real.sqrt ((ssr / (n : ℚ) : ℚ) : ℝ)) }
  else
    match curveFitQuad offset_data with
    | .error e => .error e
    | .ok (a, b, c) =>
      let n := offset_data.length
      let ssr := ssResQuad offset_data a b c
      .ok {
        a := a
        b := b
        c := c
        use_ambient := false
        ambient_ref := none
        ambient_coeff := none
        a_err := perrEntry n 3 ssr (cofQuadA offset_data) (deltaQuad offset_data)
        b_err := perrEntry n 3 ssr (cofQuadB offset_data) (deltaQuad offset_data)
        c_err := perrEntry n 3 ssr (cofQuadC offset_data) (deltaQuad offset_data)
        ambient_coeff_err := none
        r_squared := if ssTot offset_data = 0 then none
          else some (1 - ssr / ssTot offset_data)
        rmse := some (Real.sqrt ((ssr / (n : ℚ) : ℚ) : ℝ)) }

/-- The `except`-path result without ambient correction (lines 206–212). -/
def quadFallback (ip : InitialParams) : FitResult :=
  { a := ip.a
    b := ip.b
    c := ip.c
    use_ambient := false
    ambient_ref := none
    ambient_coeff := none
    a_err := none
    b_err := none
    c_err := none
    ambient_coeff_err := none
    r_squared := none
    rmse := none }

/-- The `except`-path result with ambient correction (lines 197–205). -/
def ambFallback (ip : InitialParams) (ambient_ref : ℚ) : FitResult :=
  { a := ip.a
    b := ip.b
    c := ip.c
    use_ambient := true
    ambient_ref := some ambient_ref
    ambient_coeff := some ip.ambient_coeff
    a_err := none
    b_err := none
    c_err := none
    ambient_coeff_err := none
    r_squared := none
    rmse := none }

/-- `fit_parameters.fit_correction_parameters` (lines 43–212): the
`try`-block result, or the initial/default parameters (with only the
`use_ambient`-dependent keys) when the body raises. -/
def fit_correction_parameters (offset_data : List OffsetRecord)
    (use_ambient : Bool) (ambient_ref : ℚ)
    (initial_params : Option InitialParams) : FitResult :=
  let ip := initial_params.getD defaultInitial
  match fitBody offset_data use_ambient ambient_ref with
  | .ok r => r
  | .error _ => if use_ambient then ambFallback ip ambient_ref else quadFallback ip

end

/-! ## InterpolationModel: `fit_parameters.create_interpolation_model`

`np.argsort` reorders the paired `(target_temp, liquid_offset)` arrays by
target temperature; with pairwise-distinct targets every sorting algorithm
yields the same list, modelled by insertion sort on the pairs.
`scipy.interpolate.interp1d` is external code; it is an exact interpolant,
so evaluated at its own (pairwise-distinct, strictly increasing) nodes it
returns the node ordinates — `predicted_offsets` equals `liquid_offsets`.
(Duplicate targets are outside this model: cubic `interp1d` raises on
non-increasing nodes.)  `interp1d` raises with fewer than 2 points, and the
function has no `try/except`, so that case is the `none` (exception) case.
A NaN float (the `0/0` in `R²` when the offsets have zero variance) is
`none`. -/

/-- The result dict of `create_interpolation_model` (lines 257–265). -/
structure InterpData where
  target_temps : List ℚ
  liquid_offsets : List ℚ
  interp_kind : String
  temp_min : ℚ
  temp_max : ℚ
  rmse : ℝ
  r_squared : Option ℚ

/-- The pair relation `p ≤ q` on first components used for the argsort. -/
def pairLe (p q : ℚ × ℚ) : Prop := p.1 ≤ q.1

instance : DecidableRel pairLe := fun p q => inferInstanceAs (Decidable (p.1 ≤ q.1))

instance : IsTotal (ℚ × ℚ) pairLe := ⟨fun p q => le_total p.1 q.1⟩

instance : IsTrans (ℚ × ℚ) pairLe := ⟨fun _ _ _ h h' => le_trans h h'⟩

/-- The argsort reordering: `(target_temp, liquid_offset)` pairs sorted
ascending by target temperature (lines 231–234). -/
def sortedPairs (l : List OffsetRecord) : List (ℚ × ℚ) :=
  (l.map fun d => (d.target_temp, d.liquid_offset)).insertionSort pairLe

/-- The `ss_total` of the interpolation metrics (line 252):
`Σ(yᵢ − mean(y))²` over the (sorted) offsets. -/
def interpSsTot (l : List OffsetRecord) : ℚ :=
  let ys := (sortedPairs l).map (·.2)
  (ys.map fun y => (y - ys.sum / ys.length) ^ 2).sum

noncomputable section

/-- `fit_parameters.create_interpolation_model` (lines 214–275). -/
def create_interpolation_model (offset_data : List OffsetRecord) : Option InterpData :=
  let pairs := sortedPairs offset_data
  let target_temps := pairs.map (·.1)
  let liquid_offsets := pairs.map (·.2)
  if target_temps.length < 2 then none
  else
    let kind := if 4 ≤ target_temps.length then "cubic" else "linear"
    let predicted_offsets := liquid_offsets
    let ss_residual :=
      ((liquid_offsets.zip predicted_offsets).map fun py => (py.1 - py.2) ^ 2).sum
    let ss_total := interpSsTot offset_data
    some {
      target_temps := target_temps
      liquid_offsets := liquid_offsets
      interp_kind := kind
      temp_min := target_temps.head?.getD 0
      temp_max := target_temps.getLast?.getD 0
      rmse := Real.sqrt ((ss_residual / liquid_offsets.length : ℚ) : ℝ)
      r_squared := if ss_total = 0 then none else some (1 - ss_residual / ss_total) }

end

/-! ### Branch evaluation helpers for the inverse solver -/

theorem calc_target_eq_linear (desired a b c : ℝ) (t r k : Option ℝ)
    (hD : discriminantOf a b c (desired - ambient_correction_term t r k) < 0)
    (hb : b ≠ 0) :
    calculate_corrected_target desired a b c t r k =
      ((desired - ambient_correction_term t r k) - c) / b := by
  simp only [calculate_corrected_target, calcCorrectedTargetBody]
  simp only [discriminantOf] at hD
  rw [if_pos hD, if_neg hb]

theorem calc_target_eq_desired_of_b_zero (desired a b c : ℝ) (t r k : Option ℝ)
    (hD : discriminantOf a b c (desired - ambient_correction_term t r k) < 0)
    (hb : b = 0) :
    calculate_corrected_target desired a b c t r k = desired := by
  simp only [calculate_corrected_target, calcCorrectedTargetBody]
  simp only [discriminantOf] at hD
  rw [if_pos hD, if_pos hb]

theorem calc_target_eq_quadratic (desired a b c : ℝ) (t r k : Option ℝ)
    (hD : 0 ≤ discriminantOf a b c (desired - ambient_correction_term t r k)) :
    calculate_corrected_target desired a b c t r k =
      if (rootPlus a b (discriminantOf a b c (desired - ambient_correction_term t r k)) < 0 ∨
            rootPlus a b (discriminantOf a b c (desired - ambient_correction_term t r k)) > 100) ∧
          (0 ≤ rootMinus a b (discriminantOf a b c (desired - ambient_correction_term t r k)) ∧
            rootMinus a b (discriminantOf a b c (desired - ambient_correction_term t r k)) ≤ 100)
      then rootMinus a b (discriminantOf a b c (desired - ambient_correction_term t r k))
      else rootPlus a b (discriminantOf a b c (desired - ambient_correction_term t r k)) := by
  simp only [calculate_corrected_target, calcCorrectedTargetBody, rootPlus, rootMinus]
  simp only [discriminantOf] at hD ⊢
  rw [if_neg (not_lt.mpr hD)]
  by_cases h1 : (-b + Real.sqrt (b ^ 2 - 4 * a * (c - (desired - ambient_correction_term t r k)))) /
      (2 * a) < 0 ∨
      (-b + Real.sqrt (b ^ 2 - 4 * a * (c - (desired - ambient_correction_term t r k)))) /
      (2 * a) > 100
  · rw [if_pos h1]
    by_cases h2 : 0 ≤ (-b - Real.sqrt (b ^ 2 - 4 * a * (c - (desired - ambient_correction_term t r k)))) /
        (2 * a) ∧
        (-b - Real.sqrt (b ^ 2 - 4 * a * (c - (desired - ambient_correction_term t r k)))) /
        (2 * a) ≤ 100
    · rw [if_pos h2, if_pos ⟨h1, h2⟩]
    · rw [if_neg h2, if_neg (fun h => h2 h.2)]
  · rw [if_neg h1, if_neg (fun h => h1 h.1)]

/-! ### Claim theorems about the inverse solver -/

/-- C1 (amended): for every model `(a, b, c)` with `a ≠ 0` and every adjusted
desired temperature `yAdj` with discriminant `D = b² − 4a(c − yAdj)`,
`calculate_corrected_target` returns the linear approximation `(yAdj − c)/b`
when `D < 0` and `b ≠ 0` (when `D < 0` and `b = 0` the internal division
fails and the function returns the desired temperature unchanged); when
`D ≥ 0` it returns the root `x₊ = (−b + √D)/(2a)`, except that it returns
`x₋ = (−b − √D)/(2a)` when `x₊` lies outside `[0, 100]` and `x₋` lies inside
`[0, 100]`; when neither root is in range it returns `x₊`. -/
theorem calculate_corrected_target_root_selection
    (desired a b c : ℝ) (t r k : Option ℝ) (ha : a ≠ 0)
    (yAdj D : ℝ) (hy : yAdj = desired - ambient_correction_term t r k)
    (hDdef : D = discriminantOf a b c yAdj) :
    (D < 0 → b ≠ 0 →
      calculate_corrected_target desired a b c t r k = (yAdj - c) / b) ∧
    (D < 0 → b = 0 →
      calculate_corrected_target desired a b c t r k = desired) ∧
    (0 ≤ D →
      calculate_corrected_target desired a b c t r k =
        if (rootPlus a b D < 0 ∨ rootPlus a b D > 100) ∧
            (0 ≤ rootMinus a b D ∧ rootMinus a b D ≤ 100)
        then rootMinus a b D else rootPlus a b D) := by
  subst hy hDdef
  exact ⟨fun hD hb => calc_target_eq_linear desired a b c t r k hD hb,
    fun hD hb => calc_target_eq_desired_of_b_zero desired a b c t r k hD hb,
    fun hD => calc_target_eq_quadratic desired a b c t r k hD⟩

/-- C1 witness: the root-selection theorem instantiated at the default model
`a = 0.003`, `b = −0.3`, `c = 6` and desired temperature `25 °C`. -/
theorem calculate_corrected_target_root_selection_witness :
    (0.003 : ℝ) ≠ 0 ∧
    ((discriminantOf 0.003 (-0.3) 6 25 < 0 → (-0.3 : ℝ) ≠ 0 →
      calculate_corrected_target 25 0.003 (-0.3) 6 none none none = ((25 : ℝ) - 6) / (-0.3)) ∧
    (discriminantOf 0.003 (-0.3) 6 25 < 0 → (-0.3 : ℝ) = 0 →
      calculate_corrected_target 25 0.003 (-0.3) 6 none none none = 25) ∧
    (0 ≤ discriminantOf 0.003 (-0.3) 6 25 →
      calculate_corrected_target 25 0.003 (-0.3) 6 none none none =
        if (rootPlus 0.003 (-0.3) (discriminantOf 0.003 (-0.3) 6 25) < 0 ∨
              rootPlus 0.003 (-0.3) (discriminantOf 0.003 (-0.3) 6 25) > 100) ∧
            (0 ≤ rootMinus 0.003 (-0.3) (discriminantOf 0.003 (-0.3) 6 25) ∧
              rootMinus 0.003 (-0.3) (discriminantOf 0.003 (-0.3) 6 25) ≤ 100)
        then rootMinus 0.003 (-0.3) (discriminantOf 0.003 (-0.3) 6 25)
        else rootPlus 0.003 (-0.3) (discriminantOf 0.003 (-0.3) 6 25))) :=
  ⟨by norm_num,
    calculate_corrected_target_root_selection 25 0.003 (-0.3) 6 none none none
      (by norm_num) 25 (discriminantOf 0.003 (-0.3) 6 25)
      (by simp [ambient_correction_term]) rfl⟩

/-- C1 counterexample: at `a = 1`, `b = 0`, `c = 10`, desired `5 °C` the
discriminant is negative, but the function returns the desired temperature
unchanged (the division by `b = 0` raises `ZeroDivisionError`), not the
claimed linear approximation `(yAdj − c)/b`. -/
theorem calculate_corrected_target_linear_fallback_cex :
    discriminantOf 1 0 10 (5 - ambient_correction_term none none none) < 0 ∧
    calculate_corrected_target 5 1 0 10 none none none = 5 ∧
    calculate_corrected_target 5 1 0 10 none none none ≠
      ((5 - ambient_correction_term none none none) - 10) / 0 := by
  refine ⟨by norm_num [discriminantOf, ambient_correction_term], ?_, ?_⟩ <;>
    norm_num [calculate_corrected_target, calcCorrectedTargetBody,
      ambient_correction_term]

/-- C10: `calculate_corrected_target` is total: it returns the value computed
by the `try`-block when that block succeeds, and returns the uncorrected
`desired_liquid_temp` unchanged whenever the block raises — the plain real
return value carries no indication that the correction was skipped. -/
theorem calculate_corrected_target_never_raises
    (desired a b c : ℝ) (t r k : Option ℝ) :
    (calcCorrectedTargetBody desired a b c t r k = .error () →
      calculate_corrected_target desired a b c t r k = desired) ∧
    (∀ v, calcCorrectedTargetBody desired a b c t r k = .ok v →
      calculate_corrected_target desired a b c t r k = v) := by
  unfold calculate_corrected_target
  exact ⟨fun h => by rw [h], fun v h => by rw [h]⟩

/-- C10 witness: at `a = 1`, `b = 0`, `c = 9`, desired `7 °C` the body raises
(negative discriminant and `b = 0`) and the function returns `7`. -/
theorem calculate_corrected_target_never_raises_witness :
    calcCorrectedTargetBody 7 1 0 9 none none none = .error () ∧
    calculate_corrected_target 7 1 0 9 none none none = 7 := by
  have herr : calcCorrectedTargetBody 7 1 0 9 none none none = .error () := by
    norm_num [calcCorrectedTargetBody, ambient_correction_term]
  exact ⟨herr, (calculate_corrected_target_never_raises 7 1 0 9 none none none).1 herr⟩

/-- C7 (amended): the return value of `calculate_corrected_target` is always
a bare number — the desired temperature (exception path), the linear
approximation, or one of the two quadratic roots; the degraded conditions
(linear fallback, out-of-range root) are only logged, never returned. -/
theorem calculate_corrected_target_bare_result
    (desired a b c : ℝ) (t r k : Option ℝ) :
    calculate_corrected_target desired a b c t r k = desired ∨
    calculate_corrected_target desired a b c t r k =
      ((desired - ambient_correction_term t r k) - c) / b ∨
    calculate_corrected_target desired a b c t r k =
      rootMinus a b (discriminantOf a b c (desired - ambient_correction_term t r k)) ∨
    calculate_corrected_target desired a b c t r k =
      rootPlus a b (discriminantOf a b c (desired - ambient_correction_term t r k)) := by
  by_cases hD : discriminantOf a b c (desired - ambient_correction_term t r k) < 0
  · by_cases hb : b = 0
    · exact Or.inl (calc_target_eq_desired_of_b_zero desired a b c t r k hD hb)
    · exact Or.inr (Or.inl (calc_target_eq_linear desired a b c t r k hD hb))
  · rw [calc_target_eq_quadratic desired a b c t r k (not_lt.mp hD)]
    split_ifs with h
    · exact Or.inr (Or.inr (Or.inl rfl))
    · exact Or.inr (Or.inr (Or.inr rfl))

/-- C7 counterexample: at `a = 1`, `b = 1`, `c = 100`, desired `0 °C` the
discriminant is negative (the degraded linear fallback is used), yet the
function returns just the bare number `−100` — no degraded flag or reason
accompanies the result. -/
theorem calculate_corrected_target_degraded_unflagged_cex :
    discriminantOf 1 1 100 (0 - ambient_correction_term none none none) < 0 ∧
    calculate_corrected_target 0 1 1 100 none none none = -100 := by
  constructor
  · norm_num [discriminantOf, ambient_correction_term]
  · norm_num [calculate_corrected_target, calcCorrectedTargetBody,
      ambient_correction_term]

/-! ### Evaluation of the solver at the default model and desired 25 °C -/

theorem sqrt_318_gt : (0.3 : ℝ) < Real.sqrt 0.318 :=
  (Real.lt_sqrt (by norm_num)).mpr (by norm_num)

theorem default_model_discriminant :
    discriminantOf 0.003 (-0.3) 6 (25 - ambient_correction_term none none none) = 0.318 := by
  norm_num [discriminantOf, ambient_correction_term]

theorem default_rootPlus_eq :
    rootPlus 0.003 (-0.3) 0.318 = (0.3 + Real.sqrt 0.318) / 0.006 := by
  norm_num [rootPlus]

theorem default_rootMinus_eq :
    rootMinus 0.003 (-0.3) 0.318 = (0.3 - Real.sqrt 0.318) / 0.006 := by
  norm_num [rootMinus]

theorem default_rootPlus_gt_100 : (100 : ℝ) < (0.3 + Real.sqrt 0.318) / 0.006 := by
  rw [lt_div_iff (by norm_num : (0 : ℝ) < 0.006)]
  have h := sqrt_318_gt
  linarith

theorem default_rootMinus_neg : (0.3 - Real.sqrt 0.318) / 0.006 < 0 :=
  div_neg_of_neg_of_pos (by linarith [sqrt_318_gt]) (by norm_num)

/-- At the default model and desired 25 °C both roots are out of the
operating range, so the solver returns the `+` root
`(0.3 + √0.318)/0.006 ≈ 143.99`. -/
theorem default_model_solve_eq :
    calculate_corrected_target 25 0.003 (-0.3) 6 none none none =
      (0.3 + Real.sqrt 0.318) / 0.006 := by
  have h := calc_target_eq_quadratic 25 0.003 (-0.3) 6 none none none
    (by rw [default_model_discriminant]; norm_num)
  rw [default_model_discriminant] at h
  rw [h, default_rootPlus_eq, default_rootMinus_eq, if_neg]
  rintro ⟨-, hm, -⟩
  linarith [default_rootMinus_neg]

/-- The returned setpoint satisfies the quadratic offset equation exactly:
`0.003·x² − 0.3·x + 6 = 25`. -/
theorem default_model_forward :
    0.003 * ((0.3 + Real.sqrt 0.318) / 0.006) ^ 2 +
      (-0.3) * ((0.3 + Real.sqrt 0.318) / 0.006) + 6 = 25 := by
  have hs : Real.sqrt 0.318 ^ 2 = 0.318 := Real.sq_sqrt (by norm_num)
  linear_combination (250 / 3 : ℝ) * hs

/-- C2 counterexample: for the default model and desired 25 °C, the returned
setpoint `x = (0.3 + √0.318)/0.006 ≈ 143.99` satisfies `a·x² + b·x + c = 25`
exactly, so `a·x² + b·x + c − (25 − x) = x > 100`, violating the claimed
`≈ 25 − x` within `1e-6`. -/
theorem solver_not_inverse_of_liquid_model_cex :
    |0.003 * calculate_corrected_target 25 0.003 (-0.3) 6 none none none ^ 2 +
        (-0.3) * calculate_corrected_target 25 0.003 (-0.3) 6 none none none + 6 -
        (25 - calculate_corrected_target 25 0.003 (-0.3) 6 none none none)| > 1e-6 := by
  rw [default_model_solve_eq]
  have hf := default_model_forward
  have h100 := default_rootPlus_gt_100
  have hx : 0.003 * ((0.3 + Real.sqrt 0.318) / 0.006) ^ 2 +
      (-0.3) * ((0.3 + Real.sqrt 0.318) / 0.006) + 6 -
      (25 - (0.3 + Real.sqrt 0.318) / 0.006) = (0.3 + Real.sqrt 0.318) / 0.006 := by
    linarith
  rw [hx, abs_of_pos (by linarith)]
  have : (1e-6 : ℝ) < 100 := by norm_num
  linarith

/-- C2 (amended): for the default model `a = 0.003`, `b = −0.3`, `c = 6.0`
and desired liquid temperature 25.0 °C, the setpoint `x` returned by
`calculate_corrected_target` satisfies `a·x² + b·x + c ≈ 25.0` within `1e-6`
— the solver inverts the offset model `offset(x) = y`, not the liquid model
`x + offset(x) = y` (and here it returns the `+` root ≈ 143.99 with both
roots out of the operating range). -/
theorem solver_inverts_offset_model :
    |0.003 * calculate_corrected_target 25 0.003 (-0.3) 6 none none none ^ 2 +
        (-0.3) * calculate_corrected_target 25 0.003 (-0.3) 6 none none none + 6 - 25|
      < 1e-6 := by
  rw [default_model_solve_eq]
  have hf := default_model_forward
  have hz : 0.003 * ((0.3 + Real.sqrt 0.318) / 0.006) ^ 2 +
      (-0.3) * ((0.3 + Real.sqrt 0.318) / 0.006) + 6 - 25 = 0 := by linarith
  rw [hz, abs_zero]
  norm_num

/-! ### Helper lemmas for the segmenter -/

theorem foldl_appendNonEmpty (l : List (List Sample)) :
    ∀ acc, l.foldl appendNonEmpty acc = acc ++ l.filter fun xs => !xs.isEmpty := by
  induction l with
  | nil => simp
  | cons x t ih =>
    intro acc
    rw [List.foldl_cons, ih, List.filter_cons]
    by_cases hx : x.isEmpty
    · simp [appendNonEmpty, hx]
    · simp [appendNonEmpty, hx]

theorem stepsFromPoints_eq_filter (df : List Sample) (points : List ℕ) :
    stepsFromPoints df points =
      (boundarySlices df points).filter fun xs => !xs.isEmpty := by
  rw [stepsFromPoints, boundarySlices, ← List.foldl_map, foldl_appendNonEmpty]
  simp

theorem equalSegments_eq_filter (df : List Sample) (e : ℕ) :
    equalSegments df e =
      ((List.range e).map fun i =>
        sliceIdx df (i * (df.length / e))
          (if i = e - 1 then df.length else (i + 1) * (df.length / e))).filter
        fun xs => !xs.isEmpty := by
  rw [equalSegments, ← List.foldl_map, foldl_appendNonEmpty]
  simp

theorem length_sliceIdx (df : List Sample) (a b : ℕ) :
    (sliceIdx df a b).length = min b df.length - a := by
  simp [sliceIdx]

theorem pairwise_zip_tail : ∀ {l : List ℕ}, List.Pairwise (· < ·) l →
    ∀ pq ∈ l.zip l.tail, pq.1 < pq.2
  | [], _, pq, h => by simp at h
  | [a], _, pq, h => by simp at h
  | a :: b :: t, hp, pq, h => by
    rw [List.pairwise_cons] at hp
    obtain ⟨ha, hp'⟩ := hp
    rcases List.mem_cons.mp h with rfl | h'
    · exact ha b (List.mem_cons_self b t)
    · exact pairwise_zip_tail hp' pq h'

theorem temp_changes_mem_iff (ts : List ℚ) (i : ℕ) :
    i ∈ temp_changes ts ↔
      1 ≤ i ∧ i < ts.length ∧ |ts.getD i 0 - ts.getD (i - 1) 0| > 1 / 10 := by
  simp only [temp_changes, List.mem_filter, List.mem_range'_1, decide_eq_true_eq]
  constructor
  · rintro ⟨⟨h1, h2⟩, h3⟩
    exact ⟨h1, by omega, h3⟩
  · rintro ⟨h1, h2, h3⟩
    exact ⟨⟨h1, by omega⟩, h3⟩

theorem temp_changes_pairwise (ts : List ℚ) :
    List.Pairwise (· < ·) (temp_changes ts) :=
  List.Pairwise.filter _ (List.pairwise_lt_range' 1 (ts.length - 1))

theorem temp_changes_bounds (df : List Sample) :
    ∀ i ∈ temp_changes (df.map (·.target_temp)), 1 ≤ i ∧ i < df.length := by
  intro i hi
  have h := (temp_changes_mem_iff _ i).mp hi
  rw [List.length_map] at h
  exact ⟨h.1, h.2.1⟩

theorem step_points_pairwise (df : List Sample) (hne : df ≠ []) :
    List.Pairwise (· < ·) ((0 :: temp_changes (df.map (·.target_temp))) ++ [df.length]) := by
  have hn : 0 < df.length := List.length_pos.mpr hne
  have hb := temp_changes_bounds df
  rw [List.cons_append, List.pairwise_cons, List.pairwise_append]
  refine ⟨?_, temp_changes_pairwise _, List.pairwise_singleton _ _, ?_⟩
  · intro x hx
    rcases List.mem_append.mp hx with h | h
    · exact lt_of_lt_of_le one_pos (hb x h).1
    · simp only [List.mem_singleton] at h
      omega
  · intro a ha b hbm
    simp only [List.mem_singleton] at hbm
    subst hbm
    exact (hb a ha).2

theorem step_points_le (df : List Sample) :
    ∀ x ∈ (0 :: temp_changes (df.map (·.target_temp))) ++ [df.length], x ≤ df.length := by
  intro x hx
  rcases List.mem_append.mp hx with h | h
  · rcases List.mem_cons.mp h with rfl | h'
    · exact Nat.zero_le _
    · exact le_of_lt (temp_changes_bounds df x h').2
  · simp only [List.mem_singleton] at h
    omega

theorem boundarySlices_nonempty (df : List Sample) (hne : df ≠ []) :
    ∀ xs ∈ boundarySlices df ((0 :: temp_changes (df.map (·.target_temp))) ++ [df.length]),
      (!xs.isEmpty) = true := by
  intro xs hxs
  obtain ⟨pq, hpq, rfl⟩ := List.mem_map.mp hxs
  have hlt : pq.1 < pq.2 := pairwise_zip_tail (step_points_pairwise df hne) pq hpq
  have hle : pq.2 ≤ df.length :=
    step_points_le df pq.2 (List.mem_of_mem_tail (List.of_mem_zip hpq).2)
  have hlen : (sliceIdx df pq.1 pq.2).length = min pq.2 df.length - pq.1 :=
    length_sliceIdx df pq.1 pq.2
  have hpos : 0 < (sliceIdx df pq.1 pq.2).length := by omega
  simp only [Bool.not_eq_true', List.isEmpty_eq_false_iff_exists_mem]
  obtain ⟨y, hy⟩ := List.exists_mem_of_length_pos hpos
  exact ⟨y, hy⟩

/-- C5 (amended): with supplied settings, `split_temperature_steps` marks a
boundary at exactly the indices `i ≥ 1` where
`|target_temp[i] − target_temp[i−1]| > 0.1`, always adds `0` and `len(df)`
as outer boundaries and, when at least `expected_steps − 1` changes are
detected (with `expected_steps = ⌊|stop − start|/increment⌋ + 1`), emits one
step per `[boundary[i], boundary[i+1])` slice in chronological order;
with fewer detected changes it instead splits the series into
`expected_steps` contiguous chunks — the first `expected_steps − 1` of
length `⌊len/expected_steps⌋` and the last running to the end (so the chunks
are NOT all equal-length unless `expected_steps` divides `len`), dropping
empty chunks; and with a zero increment it returns the whole series as a
single step. -/
theorem split_temperature_steps_spec (df : List Sample) (s : MeasurementSettings) :
    (s.increment = 0 → split_temperature_steps df s = [df]) ∧
    (∀ i : ℕ, i ∈ temp_changes (df.map (·.target_temp)) ↔
      1 ≤ i ∧ i < df.length ∧
        |(df.map (·.target_temp)).getD i 0 -
          (df.map (·.target_temp)).getD (i - 1) 0| > 1 / 10) ∧
    (s.increment ≠ 0 → df ≠ [] →
      (temp_changes (df.map (·.target_temp))).length ≥ expected_steps s - 1 →
      split_temperature_steps df s =
        boundarySlices df ((0 :: temp_changes (df.map (·.target_temp))) ++ [df.length])) ∧
    (s.increment ≠ 0 →
      (temp_changes (df.map (·.target_temp))).length < expected_steps s - 1 →
      split_temperature_steps df s =
        ((List.range (expected_steps s)).map fun i =>
          sliceIdx df (i * (df.length / expected_steps s))
            (if i = expected_steps s - 1 then df.length
             else (i + 1) * (df.length / expected_steps s))).filter
          fun xs => !xs.isEmpty) := by
  refine ⟨?_, ?_, ?_, ?_⟩
  · intro h
    rw [split_temperature_steps, if_pos h]
  · intro i
    rw [temp_changes_mem_iff, List.length_map]
  · intro hinc hne hge
    rw [split_temperature_steps, if_neg hinc]
    simp only [ge_iff_le]
    rw [if_pos hge, stepsFromPoints_eq_filter,
      List.filter_eq_self.mpr (boundarySlices_nonempty df hne)]
  · intro hinc hlt
    rw [split_temperature_steps, if_neg hinc]
    simp only [ge_iff_le]
    rw [if_neg (by omega), equalSegments_eq_filter]

/-- C5 witness: four samples stepping 20 → 21 °C with settings
(start 20, stop 21, increment 1): one change is detected at index 2 and the
function emits the two boundary slices `[0,2)` and `[2,4)`. -/
theorem split_temperature_steps_spec_witness :
    split_temperature_steps
        [mkSample 0 20, mkSample 1 20, mkSample 2 21, mkSample 3 21] ⟨20, 21, 1⟩ =
      boundarySlices [mkSample 0 20, mkSample 1 20, mkSample 2 21, mkSample 3 21]
        ((0 :: temp_changes
          (([mkSample 0 20, mkSample 1 20, mkSample 2 21, mkSample 3 21]).map
            (·.target_temp))) ++
          [([mkSample 0 20, mkSample 1 20, mkSample 2 21, mkSample 3 21] : List Sample).length]) :=
  (split_temperature_steps_spec
      [mkSample 0 20, mkSample 1 20, mkSample 2 21, mkSample 3 21] ⟨20, 21, 1⟩).2.2.1
    (by norm_num) (by simp)
    (by norm_num [temp_changes, List.range', List.filter, expected_steps, mkSample])

/-- C5 counterexample: five constant-target samples with settings
(start 10, stop 11, increment 1) take the fallback path with
`expected_steps = 2` and produce chunks of lengths 2 and 3 — the fallback
partition is not into equal-length chunks. -/
theorem split_fallback_unequal_chunks_cex :
    expected_steps ⟨10, 11, 1⟩ = 2 ∧
    temp_changes
      (([mkSample 0 20, mkSample 1 20, mkSample 2 20, mkSample 3 20,
        mkSample 4 20]).map (·.target_temp)) = [] ∧
    (split_temperature_steps
        [mkSample 0 20, mkSample 1 20, mkSample 2 20, mkSample 3 20, mkSample 4 20]
        ⟨10, 11, 1⟩).map List.length = [2, 3] := by
  have he : expected_steps ⟨10, 11, 1⟩ = 2 := by norm_num [expected_steps]
  have hc : temp_changes
      (([mkSample 0 20, mkSample 1 20, mkSample 2 20, mkSample 3 20,
        mkSample 4 20]).map (·.target_temp)) = [] := by
    norm_num [temp_changes, List.range', List.filter, mkSample]
  refine ⟨he, hc, ?_⟩
  rw [split_temperature_steps, if_neg (by norm_num)]
  simp only [he, hc]
  norm_num
  rfl

/-- C4 (amended): `extract_offset_data` computes every statistic over
exactly the stable window `step[⌊0.8·len⌋:]` (the last 20 % of the step's
samples), but it performs NO minimum-sample check on that window: it
returns an `OffsetData` record for every non-empty step — even when the
stable window has no non-missing liquid temperature at all, in which case
the liquid statistics are NaN (`none`) — and it fails (returns `none`)
exactly when the step is empty. -/
theorem extract_offset_data_spec (step_df : List Sample) :
    (extract_offset_data step_df = none ↔ step_df = []) ∧
    ((extract_offset_data step_df).map OffsetData.target_temp =
      if step_df = [] then none
      else some (meanQ ((step_df.drop (4 * step_df.length / 5)).map (·.target_temp)))) ∧
    ((extract_offset_data step_df).map OffsetData.holder_temp_mean =
      if step_df = [] then none
      else some (colMean ((step_df.drop (4 * step_df.length / 5)).map (·.holder_temp)))) ∧
    ((extract_offset_data step_df).map OffsetData.holder_temp_std =
      if step_df = [] then none
      else some (colStd ((step_df.drop (4 * step_df.length / 5)).map (·.holder_temp)))) ∧
    ((extract_offset_data step_df).map OffsetData.holder_offset =
      if step_df = [] then none
      else some ((colMean ((step_df.drop (4 * step_df.length / 5)).map (·.holder_temp))).map
        fun m => m - meanQ ((step_df.drop (4 * step_df.length / 5)).map (·.target_temp)))) ∧
    ((extract_offset_data step_df).map OffsetData.liquid_temp_mean =
      if step_df = [] then none
      else some (colMean ((step_df.drop (4 * step_df.length / 5)).map (·.liquid_temp)))) ∧
    ((extract_offset_data step_df).map OffsetData.liquid_temp_std =
      if step_df = [] then none
      else some (colStd ((step_df.drop (4 * step_df.length / 5)).map (·.liquid_temp)))) ∧
    ((extract_offset_data step_df).map OffsetData.liquid_offset =
      if step_df = [] then none
      else some ((colMean ((step_df.drop (4 * step_df.length / 5)).map (·.liquid_temp))).map
        fun m => m - meanQ ((step_df.drop (4 * step_df.length / 5)).map (·.target_temp)))) ∧
    ((extract_offset_data step_df).map OffsetData.ambient_temp_mean =
      if step_df = [] then none
      else some (colMean ((step_df.drop (4 * step_df.length / 5)).map (·.ambient_temp)))) ∧
    ((extract_offset_data step_df).map OffsetData.ambient_temp_std =
      if step_df = [] then none
      else some (colStd ((step_df.drop (4 * step_df.length / 5)).map (·.ambient_temp)))) := by
  cases step_df with
  | nil => simp [extract_offset_data]
  | cons s0 rest => simp [extract_offset_data]

/-- C4 counterexample: a five-sample step whose liquid temperature is
missing everywhere — the stable window contains 0 < 5 non-missing liquid
samples — still yields an `OffsetData` record. -/
theorem extract_no_liquid_count_check_cex :
    ((([mkSample 0 30, mkSample 1 30, mkSample 2 30, mkSample 3 30,
          mkSample 4 30] : List Sample).drop
        (4 * ([mkSample 0 30, mkSample 1 30, mkSample 2 30, mkSample 3 30,
          mkSample 4 30] : List Sample).length / 5)).filterMap
      (·.liquid_temp)).length = 0 ∧
    (extract_offset_data
      [mkSample 0 30, mkSample 1 30, mkSample 2 30, mkSample 3 30,
        mkSample 4 30]).isSome = true :=
  ⟨rfl, rfl⟩

/-! ### Error paths of the fitter (C3, C6) -/

/-- C3 (corrected/amended): `fit_correction_parameters` surfaces no error at
all.  With fewer than 3 records `curve_fit` raises, the `except` catches it,
and the function returns the initial/default parameters as a plain result
whose only distinguishing feature is the absence of the fit-quality and
error keys; the same happens for every other `try`-block failure
(non-convergence, singular system).  The caller never opts in and receives
no explicit `InsufficientData`/`FitFailure` signal. -/
theorem fit_correction_parameters_swallows_failures
    (offset_data : List OffsetRecord) (ambient_ref : ℚ)
    (initial_params : Option InitialParams) :
    (offset_data.length < 3 →
      fit_correction_parameters offset_data false ambient_ref initial_params =
        quadFallback (initial_params.getD defaultInitial)) ∧
    (∀ ua : Bool, fitBody offset_data ua ambient_ref = .error () →
      fit_correction_parameters offset_data ua ambient_ref initial_params =
        if ua then ambFallback (initial_params.getD defaultInitial) ambient_ref
        else quadFallback (initial_params.getD defaultInitial)) := by
  constructor
  · intro h
    have hb : fitBody offset_data false ambient_ref = .error () := by
      rw [fitBody, curveFitQuad, if_pos h]
      rfl
    rw [fit_correction_parameters, hb]
    rfl
  · intro ua hb
    rw [fit_correction_parameters, hb]

/-- C3 witness: two records are fewer than 3; the fitter returns the default
parameters. -/
theorem fit_correction_parameters_swallows_failures_witness :
    ([⟨20, 1, none⟩, ⟨30, 2, none⟩] : List OffsetRecord).length < 3 ∧
    fit_correction_parameters [⟨20, 1, none⟩, ⟨30, 2, none⟩] false 20 none =
      quadFallback ((none : Option InitialParams).getD defaultInitial) :=
  ⟨by decide,
    (fit_correction_parameters_swallows_failures
      [⟨20, 1, none⟩, ⟨30, 2, none⟩] 20 none).1 (by decide)⟩

/-- C3 counterexample: on a 2-record input (fewer than 3 valid
OffsetRecords) the function does not fail with any explicit error — it
returns the default parameters `a = 0.003, b = −0.3, c = 6` as an ordinary
result dict with no error indication beyond the absent quality keys. -/
theorem fit_insufficient_data_no_error_cex :
    fit_correction_parameters [⟨20, 1, none⟩, ⟨30, 2, none⟩] false 20 none =
      quadFallback defaultInitial ∧
    (quadFallback defaultInitial).a = 0.003 ∧
    (quadFallback defaultInitial).b = -0.3 ∧
    (quadFallback defaultInitial).c = 6 ∧
    (quadFallback defaultInitial).r_squared = none :=
  ⟨rfl, rfl, rfl, rfl, rfl⟩

/-- C6 (corrected/amended): with `use_ambient = true` and any record lacking
an ambient mean, the list-comprehension `KeyError` lands in the `except`
path, so the fitter returns the ambient-flavoured default result — the
initial parameters with `use_ambient` still `true` and the initial
`ambient_coeff` — rather than falling back to the plain quadratic Model A
or reporting ambient correction as disabled. -/
theorem fit_missing_ambient_returns_initial
    (offset_data : List OffsetRecord) (ambient_ref : ℚ)
    (initial_params : Option InitialParams)
    (h : ∃ d ∈ offset_data, d.ambient_temp_mean = none) :
    fit_correction_parameters offset_data true ambient_ref initial_params =
      ambFallback (initial_params.getD defaultInitial) ambient_ref := by
  have hany : (offset_data.any fun d => d.ambient_temp_mean.isNone) = true := by
    rw [List.any_eq_true]
    obtain ⟨d, hd, hnone⟩ := h
    exact ⟨d, hd, by rw [hnone]; rfl⟩
  have hb : fitBody offset_data true ambient_ref = .error () := by
    rw [fitBody]
    simp [hany]
  rw [fit_correction_parameters, hb]
  rfl

/-- C6 witness: three records, the middle one without an ambient mean. -/
theorem fit_missing_ambient_returns_initial_witness :
    fit_correction_parameters
        [⟨20, 1, some 22⟩, ⟨25, 2, none⟩, ⟨30, 3, some 23⟩] true 20 none =
      ambFallback ((none : Option InitialParams).getD defaultInitial) 20 :=
  fit_missing_ambient_returns_initial
    [⟨20, 1, some 22⟩, ⟨25, 2, none⟩, ⟨30, 3, some 23⟩] 20 none
    ⟨⟨25, 2, none⟩, by simp, rfl⟩

/-- C6 counterexample: with a record lacking an ambient mean the result
still reports `use_ambient = true` (not `false`), carries the initial
parameters with the initial ambient coefficient, and has no fit quality —
no Model A fit happens and ambient correction is not reported disabled. -/
theorem fit_missing_ambient_not_model_a_cex :
    (fit_correction_parameters
      [⟨20, 1, some 22⟩, ⟨25, 2, none⟩, ⟨30, 3, some 23⟩] true 20 none).use_ambient
        = true ∧
    (fit_correction_parameters
      [⟨20, 1, some 22⟩, ⟨25, 2, none⟩, ⟨30, 3, some 23⟩] true 20 none).a = 0.003 ∧
    (fit_correction_parameters
      [⟨20, 1, some 22⟩, ⟨25, 2, none⟩, ⟨30, 3, some 23⟩] true 20 none).ambient_coeff
        = some 0 ∧
    (fit_correction_parameters
      [⟨20, 1, some 22⟩, ⟨25, 2, none⟩, ⟨30, 3, some 23⟩] true 20 none).r_squared
        = none :=
  ⟨rfl, rfl, rfl, rfl⟩

/-! ### Order invariance of the fitter (C8) -/

theorem sPow_perm {l₁ l₂ : List OffsetRecord} (h : l₁.Perm l₂) :
    ∀ k, sPow l₁ k = sPow l₂ k :=
  fun _ => (h.map _).sum_eq

theorem sPowOff_perm {l₁ l₂ : List OffsetRecord} (h : l₁.Perm l₂) :
    ∀ k, sPowOff l₁ k = sPowOff l₂ k :=
  fun _ => (h.map _).sum_eq

theorem sPowZ_perm {l₁ l₂ : List OffsetRecord} (h : l₁.Perm l₂) :
    ∀ r k, sPowZ l₁ r k = sPowZ l₂ r k :=
  fun _ _ => (h.map _).sum_eq

theorem sZZ_perm {l₁ l₂ : List OffsetRecord} (h : l₁.Perm l₂) :
    ∀ r, sZZ l₁ r = sZZ l₂ r :=
  fun _ => (h.map _).sum_eq

theorem sZOff_perm {l₁ l₂ : List OffsetRecord} (h : l₁.Perm l₂) :
    ∀ r, sZOff l₁ r = sZOff l₂ r :=
  fun _ => (h.map _).sum_eq

theorem ssResQuad_perm {l₁ l₂ : List OffsetRecord} (h : l₁.Perm l₂) :
    ∀ a b c, ssResQuad l₁ a b c = ssResQuad l₂ a b c :=
  fun _ _ _ => (h.map _).sum_eq

theorem ssResAmb_perm {l₁ l₂ : List OffsetRecord} (h : l₁.Perm l₂) :
    ∀ r a b c dc, ssResAmb l₁ r a b c dc = ssResAmb l₂ r a b c dc :=
  fun _ _ _ _ _ => (h.map _).sum_eq

theorem ssTot_perm {l₁ l₂ : List OffsetRecord} (h : l₁.Perm l₂) :
    ssTot l₁ = ssTot l₂ := by
  have hsum : (l₁.map fun e => e.liquid_offset).sum =
      (l₂.map fun e => e.liquid_offset).sum := (h.map _).sum_eq
  have hlen := h.length_eq
  unfold ssTot
  simp only [hsum, hlen]
  exact (h.map _).sum_eq

theorem any_isNone_perm {l₁ l₂ : List OffsetRecord} (h : l₁.Perm l₂) :
    (l₁.any fun d => d.ambient_temp_mean.isNone) =
      (l₂.any fun d => d.ambient_temp_mean.isNone) := by
  rw [← Bool.coe_iff_coe]
  simp only [List.any_eq_true]
  constructor <;> rintro ⟨x, hx, hpx⟩
  · exact ⟨x, h.mem_iff.mp hx, hpx⟩
  · exact ⟨x, h.mem_iff.mpr hx, hpx⟩

theorem curveFitQuad_perm {l₁ l₂ : List OffsetRecord} (h : l₁.Perm l₂) :
    curveFitQuad l₁ = curveFitQuad l₂ := by
  unfold curveFitQuad
  simp only [h.length_eq, sPow_perm h, sPowOff_perm h]

theorem curveFitAmb_perm {l₁ l₂ : List OffsetRecord} (h : l₁.Perm l₂) :
    ∀ r, curveFitAmb l₁ r = curveFitAmb l₂ r := by
  intro r
  unfold curveFitAmb
  simp only [h.length_eq, sPow_perm h, sPowOff_perm h, sPowZ_perm h, sZZ_perm h,
    sZOff_perm h]

theorem deltaQuad_perm {l₁ l₂ : List OffsetRecord} (h : l₁.Perm l₂) :
    deltaQuad l₁ = deltaQuad l₂ := by
  unfold deltaQuad
  simp only [sPow_perm h]

theorem cofQuadA_perm {l₁ l₂ : List OffsetRecord} (h : l₁.Perm l₂) :
    cofQuadA l₁ = cofQuadA l₂ := by
  unfold cofQuadA
  simp only [sPow_perm h]

theorem cofQuadB_perm {l₁ l₂ : List OffsetRecord} (h : l₁.Perm l₂) :
    cofQuadB l₁ = cofQuadB l₂ := by
  unfold cofQuadB
  simp only [sPow_perm h]

theorem cofQuadC_perm {l₁ l₂ : List OffsetRecord} (h : l₁.Perm l₂) :
    cofQuadC l₁ = cofQuadC l₂ := by
  unfold cofQuadC
  simp only [sPow_perm h]

theorem deltaAmb_perm {l₁ l₂ : List OffsetRecord} (h : l₁.Perm l₂) :
    ∀ r, deltaAmb l₁ r = deltaAmb l₂ r := by
  intro r
  unfold deltaAmb
  simp only [sPow_perm h, sPowZ_perm h, sZZ_perm h]

theorem cofAmbA_perm {l₁ l₂ : List OffsetRecord} (h : l₁.Perm l₂) :
    ∀ r, cofAmbA l₁ r = cofAmbA l₂ r := by
  intro r
  unfold cofAmbA
  simp only [sPow_perm h, sPowZ_perm h, sZZ_perm h]

theorem cofAmbB_perm {l₁ l₂ : List OffsetRecord} (h : l₁.Perm l₂) :
    ∀ r, cofAmbB l₁ r = cofAmbB l₂ r := by
  intro r
  unfold cofAmbB
  simp only [sPow_perm h, sPowZ_perm h, sZZ_perm h]

theorem cofAmbC_perm {l₁ l₂ : List OffsetRecord} (h : l₁.Perm l₂) :
    ∀ r, cofAmbC l₁ r = cofAmbC l₂ r := by
  intro r
  unfold cofAmbC
  simp only [sPow_perm h, sPowZ_perm h, sZZ_perm h]

theorem cofAmbD_perm {l₁ l₂ : List OffsetRecord} (h : l₁.Perm l₂) :
    ∀ r, cofAmbD l₁ r = cofAmbD l₂ r := by
  intro r
  unfold cofAmbD
  simp only [sPow_perm h]

theorem fitBody_perm {l₁ l₂ : List OffsetRecord} (h : l₁.Perm l₂)
    (ua : Bool) (ambient_ref : ℚ) :
    fitBody l₁ ua ambient_ref = fitBody l₂ ua ambient_ref := by
  unfold fitBody
  simp only [h.length_eq, any_isNone_perm h, curveFitQuad_perm h, curveFitAmb_perm h,
    ssResQuad_perm h, ssResAmb_perm h, ssTot_perm h, deltaQuad_perm h, cofQuadA_perm h,
    cofQuadB_perm h, cofQuadC_perm h, deltaAmb_perm h, cofAmbA_perm h, cofAmbB_perm h,
    cofAmbC_perm h, cofAmbD_perm h]

/-- C8: `fit_correction_parameters` produces the same result — fitted
coefficients, parameter errors, R² and RMSE — for every permutation of its
input records: every step of the computation (the missing-ambient check,
the point count, the least-squares optimum, and the quality metrics) is a
function of order-independent sums over the records. -/
theorem fit_correction_parameters_perm_invariant
    (l₁ l₂ : List OffsetRecord) (use_ambient : Bool) (ambient_ref : ℚ)
    (initial_params : Option InitialParams) (h : l₁.Perm l₂) :
    fit_correction_parameters l₁ use_ambient ambient_ref initial_params =
      fit_correction_parameters l₂ use_ambient ambient_ref initial_params := by
  rw [fit_correction_parameters, fit_correction_parameters,
    fitBody_perm h use_ambient ambient_ref]

/-- C8 witness: swapping the first two of three records leaves the fit
result unchanged. -/
theorem fit_correction_parameters_perm_invariant_witness :
    fit_correction_parameters
        [⟨20, 1, none⟩, ⟨25, 2, none⟩, ⟨30, 3, none⟩] false 20 none =
      fit_correction_parameters
        [⟨25, 2, none⟩, ⟨20, 1, none⟩, ⟨30, 3, none⟩] false 20 none :=
  fit_correction_parameters_perm_invariant
    [⟨20, 1, none⟩, ⟨25, 2, none⟩, ⟨30, 3, none⟩]
    [⟨25, 2, none⟩, ⟨20, 1, none⟩, ⟨30, 3, none⟩] false 20 none
    (List.Perm.swap (⟨25, 2, none⟩ : OffsetRecord) ⟨20, 1, none⟩ [⟨30, 3, none⟩])

theorem zip_self_sq_sum : ∀ l : List ℚ, ((l.zip l).map fun py => (py.1 - py.2) ^ 2).sum = 0
  | [] => rfl
  | x :: t => by
    simp only [List.zip_cons_cons, List.map_cons, List.sum_cons, zip_self_sq_sum t]
    ring

theorem sortedPairs_length (l : List OffsetRecord) :
    (sortedPairs l).length = l.length := by
  rw [sortedPairs, (List.perm_insertionSort pairLe _).length_eq, List.length_map]

/-- C9 (amended): `create_interpolation_model` sorts the
`(target_temp, offset)` pairs ascending by target temperature, chooses a
cubic interpolant iff there are at least 4 points (else linear), and —
because the exact interpolant reproduces its own nodes — its re-evaluation
metrics come out as RMSE = 0 always, and R² = 1 exactly when the offsets
are not all equal (non-zero total variance); when the offsets all coincide
the R² computation is `1 − 0/0`, a NaN, not 1.0.  (Pairwise-distinct
targets are assumed: with duplicates the cubic interpolant construction
raises.) -/
theorem create_interpolation_model_spec (offset_data : List OffsetRecord)
    (h2 : 2 ≤ offset_data.length)
    (hdist : (offset_data.map (·.target_temp)).Pairwise (· ≠ ·)) :
    ((create_interpolation_model offset_data).map InterpData.target_temps =
      some ((sortedPairs offset_data).map (·.1))) ∧
    List.Sorted (· ≤ ·) ((sortedPairs offset_data).map (·.1)) ∧
    (sortedPairs offset_data).Perm
      (offset_data.map fun d => (d.target_temp, d.liquid_offset)) ∧
    ((create_interpolation_model offset_data).map InterpData.interp_kind =
      some (if 4 ≤ offset_data.length then "cubic" else "linear")) ∧
    ((create_interpolation_model offset_data).map InterpData.rmse = some 0) ∧
    (interpSsTot offset_data ≠ 0 →
      (create_interpolation_model offset_data).map InterpData.r_squared =
        some (some 1)) ∧
    (interpSsTot offset_data = 0 →
      (create_interpolation_model offset_data).map InterpData.r_squared =
        some none) := by
  have hlen : ((sortedPairs offset_data).map (·.1)).length = offset_data.length := by
    rw [List.length_map, sortedPairs_length]
  have hnot : ¬ ((sortedPairs offset_data).map (fun p => p.1)).length < 2 := by
    rw [List.length_map, sortedPairs_length]
    omega
  have hzip := zip_self_sq_sum ((sortedPairs offset_data).map (·.2))
  refine ⟨?_, ?_, ?_, ?_, ?_, ?_, ?_⟩
  · simp only [create_interpolation_model, if_neg hnot, Option.map_some']
  · have hs := List.sorted_insertionSort pairLe
      (offset_data.map fun d => (d.target_temp, d.liquid_offset))
    exact List.pairwise_map.mpr hs
  · exact List.perm_insertionSort pairLe _
  · simp only [create_interpolation_model, List.length_map, sortedPairs_length]
    rw [if_neg (show ¬ offset_data.length < 2 by omega)]
    simp only [Option.map_some']
  · simp only [create_interpolation_model, if_neg hnot, Option.map_some', hzip]
    norm_num
  · intro hne
    simp only [create_interpolation_model, if_neg hnot, Option.map_some', hzip,
      if_neg hne]
    norm_num
  · intro h0
    simp only [create_interpolation_model, if_neg hnot, Option.map_some', h0]
    simp

/-- C9 witness: four records with distinct targets and non-constant offsets
— cubic kind, RMSE 0, R² = 1. -/
theorem create_interpolation_model_spec_witness :
    2 ≤ ([⟨10, 1, none⟩, ⟨20, 2, none⟩, ⟨30, 3, none⟩, ⟨40, 4, none⟩] :
      List OffsetRecord).length ∧
    (((create_interpolation_model
        [⟨10, 1, none⟩, ⟨20, 2, none⟩, ⟨30, 3, none⟩, ⟨40, 4, none⟩]).map
      InterpData.target_temps =
        some ((sortedPairs
          [⟨10, 1, none⟩, ⟨20, 2, none⟩, ⟨30, 3, none⟩, ⟨40, 4, none⟩]).map (·.1))) ∧
    List.Sorted (· ≤ ·) ((sortedPairs
      [⟨10, 1, none⟩, ⟨20, 2, none⟩, ⟨30, 3, none⟩, ⟨40, 4, none⟩]).map (·.1)) ∧
    (sortedPairs [⟨10, 1, none⟩, ⟨20, 2, none⟩, ⟨30, 3, none⟩, ⟨40, 4, none⟩]).Perm
      (([⟨10, 1, none⟩, ⟨20, 2, none⟩, ⟨30, 3, none⟩, ⟨40, 4, none⟩] :
        List OffsetRecord).map fun d => (d.target_temp, d.liquid_offset)) ∧
    ((create_interpolation_model
        [⟨10, 1, none⟩, ⟨20, 2, none⟩, ⟨30, 3, none⟩, ⟨40, 4, none⟩]).map
      InterpData.interp_kind =
        some (if 4 ≤ ([⟨10, 1, none⟩, ⟨20, 2, none⟩, ⟨30, 3, none⟩, ⟨40, 4, none⟩] :
          List OffsetRecord).length then "cubic" else "linear")) ∧
    ((create_interpolation_model
        [⟨10, 1, none⟩, ⟨20, 2, none⟩, ⟨30, 3, none⟩, ⟨40, 4, none⟩]).map
      InterpData.rmse = some 0) ∧
    (interpSsTot [⟨10, 1, none⟩, ⟨20, 2, none⟩, ⟨30, 3, none⟩, ⟨40, 4, none⟩] ≠ 0 →
      (create_interpolation_model
        [⟨10, 1, none⟩, ⟨20, 2, none⟩, ⟨30, 3, none⟩, ⟨40, 4, none⟩]).map
        InterpData.r_squared = some (some 1)) ∧
    (interpSsTot [⟨10, 1, none⟩, ⟨20, 2, none⟩, ⟨30, 3, none⟩, ⟨40, 4, none⟩] = 0 →
      (create_interpolation_model
        [⟨10, 1, none⟩, ⟨20, 2, none⟩, ⟨30, 3, none⟩, ⟨40, 4, none⟩]).map
        InterpData.r_squared = some none)) :=
  ⟨by decide,
    create_interpolation_model_spec
      [⟨10, 1, none⟩, ⟨20, 2, none⟩, ⟨30, 3, none⟩, ⟨40, 4, none⟩]
      (by decide)
      (by norm_num [List.pairwise_cons])⟩

/-- C9 counterexample: four records with distinct targets but identical
offsets (zero total variance): the model is built (cubic), yet R² is the
NaN `1 − 0/0`, not 1.0 — the quality metric is not 1.0 for every input
dataset. -/
theorem interpolation_r_squared_nan_cex :
    (create_interpolation_model
      [⟨10, 2, none⟩, ⟨20, 2, none⟩, ⟨30, 2, none⟩, ⟨40, 2, none⟩]).map
      InterpData.r_squared = some none ∧
    (create_interpolation_model
      [⟨10, 2, none⟩, ⟨20, 2, none⟩, ⟨30, 2, none⟩, ⟨40, 2, none⟩]).map
      InterpData.interp_kind = some "cubic" := by
  have hs : sortedPairs [⟨10, 2, none⟩, ⟨20, 2, none⟩, ⟨30, 2, none⟩, ⟨40, 2, none⟩] =
      [(10, 2), (20, 2), (30, 2), (40, 2)] := by
    norm_num [sortedPairs, pairLe]
  have hss : interpSsTot
      [⟨10, 2, none⟩, ⟨20, 2, none⟩, ⟨30, 2, none⟩, ⟨40, 2, none⟩] = 0 := by
    rw [interpSsTot, hs]
    norm_num
  constructor
  · simp only [create_interpolation_model, hs, hss]
    norm_num
  · simp only [create_interpolation_model, hs]
    norm_num

end ThermalControl
